import Mathlib

/-!
Shallow embedding of the Omec-Charm Kubernetes operators
(`src/charm/spgwu/src/resources.py` and `src/charm/spgwc/src/charm.py`).

Pure object literals become Lean structures; the Kubernetes API surface is
modelled as an explicit cluster state plus a trace of issued API calls;
Python exceptions (kubernetes ApiException, IndexError) become `Except`
respectively `Option` results.
-/

/-- Kubernetes object metadata (`V1ObjectMeta`): namespace, name, labels. -/
structure ObjectMeta where
  ns : String
  name : String
  labels : List (String × String)
deriving DecidableEq, Repr

/-- Embeds `V1ServicePort`: name, port, protocol, nodePort. -/
structure ServicePort where
  name : String
  port : Nat
  protocol : String
  node_port : Nat
deriving DecidableEq, Repr

/-- Embeds `V1ServiceSpec`: ports, selector, type. -/
structure ServiceSpec where
  ports : List ServicePort
  selector : List (String × String)
  type : String
deriving DecidableEq, Repr

/-- Embeds `V1Service`: metadata plus spec. -/
structure Service where
  metadata : ObjectMeta
  spec : ServiceSpec
deriving DecidableEq, Repr

/-- Embeds `V1ConfigMap`: metadata plus a string-keyed data payload. -/
structure ConfigMap where
  metadata : ObjectMeta
  data : List (String × String)
deriving DecidableEq, Repr

/-- Embeds `V1ConfigMapKeySelector`: key and config-map name. -/
structure ConfigMapKeySelector where
  key : String
  name : String
deriving DecidableEq, Repr

/-- Embeds `V1ResourceFieldSelector`: container name, resource path, divisor. -/
structure ResourceFieldSelector where
  container_name : String
  resource : String
  divisor : String
deriving DecidableEq, Repr

/-- Embeds `V1EnvVarSource`: either a config-map key reference or a resource-field
reference. -/
inductive EnvVarSource where
  | configMapKeyRef (sel : ConfigMapKeySelector)
  | resourceFieldRef (sel : ResourceFieldSelector)
deriving DecidableEq, Repr

/-- Embeds `V1EnvVar`: name with a literal value or a `value_from` source.
Equality is structural, as in the python client's generated `__eq__`. -/
structure EnvVar where
  name : String
  value : Option String
  value_from : Option EnvVarSource
deriving DecidableEq, Repr

/-- A cpu/memory quantity pair, the payload of the `limits` and `requests`
dicts in `V1ResourceRequirements`. -/
structure Quantities where
  cpu : String
  memory : String
deriving DecidableEq, Repr

/-- Embeds `V1ResourceRequirements`: limits and requests. -/
structure ResourceRequirements where
  limits : Quantities
  requests : Quantities
deriving DecidableEq, Repr

/-- Embeds `V1VolumeMount`: mountPath, subPath, volume name. -/
structure VolumeMount where
  mount_path : String
  sub_path : String
  name : String
deriving DecidableEq, Repr

/-- Embeds `V1Container` (also used for init containers): the fields this program
reads or writes. -/
structure Container where
  name : String
  command : List String
  image : String
  image_pull_policy : String
  capabilities_add : List String
  volume_mounts : List VolumeMount
  env : List EnvVar
  resources : Option ResourceRequirements
  stdin : Bool
  tty : Bool
deriving DecidableEq, Repr

/-- Embeds `V1ConfigMapVolumeSource`: config-map name and default mode. -/
structure ConfigMapVolumeSource where
  name : String
  default_mode : Nat
deriving DecidableEq, Repr

/-- Embeds `V1Volume`: name plus an optional config-map source. -/
structure Volume where
  name : String
  config_map : Option ConfigMapVolumeSource
deriving DecidableEq, Repr

/-- Embeds `V1PodSpec`: containers, init containers, volumes. -/
structure PodSpec where
  containers : List Container
  init_containers : List Container
  volumes : List Volume
deriving DecidableEq, Repr

/-- Embeds `V1PodTemplateSpec`: metadata plus pod spec. -/
structure PodTemplateSpec where
  metadata : ObjectMeta
  spec : PodSpec
deriving DecidableEq, Repr

/-- Embeds `V1StatefulSetSpec`: service name, replicas, pod template. -/
structure StatefulSetSpec where
  service_name : String
  replicas : Nat
  template : PodTemplateSpec
deriving DecidableEq, Repr

/-- Embeds `V1StatefulSet`: metadata plus spec. -/
structure StatefulSet where
  metadata : ObjectMeta
  spec : StatefulSetSpec
deriving DecidableEq, Repr

/-- A descriptor as built by `_services`: the `{"namespace": ..., "body": ...}`
dict passed by keyword splatting to the API calls. -/
structure SvcDescriptor where
  ns : String
  body : Service
deriving DecidableEq, Repr

/-- A descriptor as built by `_configmaps`. -/
structure CmDescriptor where
  ns : String
  body : ConfigMap
deriving DecidableEq, Repr

/-- A python exception surfaced by this code: a kubernetes `ApiException`
carrying its HTTP status, or an `IndexError` from `containers[1]`. -/
inductive PyErr where
  | apiException (status : Nat)
  | indexError
deriving DecidableEq, Repr

/-- The Kubernetes API calls this program can issue, recorded as a trace. -/
inductive ApiCall where
  | listService (ns name : String)
  | createService (ns : String) (body : Service)
  | patchService (ns name : String) (body : Service)
  | deleteService (ns name : String)
  | listConfigMap (ns name : String)
  | createConfigMap (ns : String) (body : ConfigMap)
  | patchConfigMap (ns name : String) (body : ConfigMap)
  | deleteConfigMap (ns name : String)
  | readStatefulSet (ns name : String)
  | patchStatefulSet (ns name : String) (body : StatefulSet)
  | listClusterRole
deriving DecidableEq, Repr

/-- Whether an API call mutates cluster state (create/patch/delete, as
opposed to list/read). -/
def ApiCall.isMutating : ApiCall → Bool
  | .listService _ _ => false
  | .listConfigMap _ _ => false
  | .readStatefulSet _ _ => false
  | .listClusterRole => false
  | _ => true

/-- The cluster state visible through the CoreV1 API: existing services and
config maps. -/
structure Cluster where
  services : List Service
  config_maps : List ConfigMap
deriving DecidableEq, Repr

/-- Embeds `list_namespaced_service(namespace=ns, field_selector="metadata.name=n")`:
the services of namespace `ns` whose metadata name is exactly `n`. -/
def listNamespacedService (c : Cluster) (ns n : String) : List Service :=
  c.services.filter fun s => s.metadata.ns == ns && s.metadata.name == n

/-- Embeds `create_namespaced_service(namespace=ns, body=b)` adds the object. -/
def createNamespacedService (c : Cluster) (_ns : String) (b : Service) : Cluster :=
  { c with services := c.services ++ [b] }

/-- Embeds `patch_namespaced_service(name=n, namespace=ns, body=b)`: full-body
patch, replacing the matching object. -/
def patchNamespacedService (c : Cluster) (ns n : String) (b : Service) : Cluster :=
  { c with services := c.services.map fun s =>
      if s.metadata.ns == ns && s.metadata.name == n then b else s }

/-- Embeds `delete_namespaced_service(namespace=ns, name=n)`: removes the object if
present; a missing object makes the client raise `ApiException(404)`. -/
def deleteNamespacedService (c : Cluster) (ns n : String) : Except PyErr Cluster :=
  if c.services.any (fun s => s.metadata.ns == ns && s.metadata.name == n) then
    .ok { c with services := c.services.filter fun s =>
      !(s.metadata.ns == ns && s.metadata.name == n) }
  else
    .error (.apiException 404)

/-- Embeds `list_namespaced_config_map` filtered by exact name. -/
def listNamespacedConfigMap (c : Cluster) (ns n : String) : List ConfigMap :=
  c.config_maps.filter fun m => m.metadata.ns == ns && m.metadata.name == n

/-- Embeds `create_namespaced_config_map`. -/
def createNamespacedConfigMap (c : Cluster) (_ns : String) (b : ConfigMap) : Cluster :=
  { c with config_maps := c.config_maps ++ [b] }

/-- Embeds `patch_namespaced_config_map`: full-body patch. -/
def patchNamespacedConfigMap (c : Cluster) (ns n : String) (b : ConfigMap) : Cluster :=
  { c with config_maps := c.config_maps.map fun m =>
      if m.metadata.ns == ns && m.metadata.name == n then b else m }

/-- Embeds `delete_namespaced_config_map`: missing objects raise `ApiException(404)`. -/
def deleteNamespacedConfigMap (c : Cluster) (ns n : String) : Except PyErr Cluster :=
  if c.config_maps.any (fun m => m.metadata.ns == ns && m.metadata.name == n) then
    .ok { c with config_maps := c.config_maps.filter fun m =>
      !(m.metadata.ns == ns && m.metadata.name == n) }
  else
    .error (.apiException 404)

namespace SpgwuResources

/-- The last path component, as `os.path.basename` on the forward-slash paths
this code globs: everything after the last `/`. -/
def basename (p : String) : String :=
  String.mk (p.data.foldl (fun acc c => if c = '/' then [] else acc ++ [c]) [])

/-- Embeds `SpgwuResources._get_config_data`: builds the file-name → content mapping
from the matched files (modelled as an input list of path/content pairs, the
file-source boundary). -/
def _get_config_data (files : List (String × String)) : List (String × String) :=
  files.map fun f => (basename f.1, f.2)

/-- Embeds `SpgwuResources._services` (resources.py lines 142-173): the single
NodePort/UDP 8085→30020 service descriptor. -/
def _services (ns appName : String) : List SvcDescriptor :=
  [ { ns := ns,
      body :=
        { metadata :=
            { ns := ns, name := "spgwu-dp-comm",
              labels := [("app.kubernetes.io/name", appName)] },
          spec :=
            { ports := [ { name := "dp-comm", port := 8085, protocol := "UDP",
                           node_port := 30020 } ],
              selector := [("app.kubernetes.io/name", appName)],
              type := "NodePort" } } } ]

set_option linter.unusedVariables false in
/-- Embeds `SpgwuResources._configmaps` (resources.py lines 192-216): loads the
script, config and run-script bundles but returns only the single `spgwu`
ConfigMap descriptor carrying the script bundle. -/
def _configmaps (ns appName : String)
    (scriptFiles configFiles runscriptFiles : List (String × String)) :
    List CmDescriptor :=
  let dict_script := _get_config_data scriptFiles
  let dict_config := _get_config_data configFiles
  let dict_runscript := _get_config_data runscriptFiles
  [ { ns := ns,
      body :=
        { metadata :=
            { ns := ns, name := "spgwu",
              labels := [("app.kubernetes.io/name", appName), ("app", appName)] },
          data := dict_script } } ]

/-- Embeds `SpgwuResources.spgwu_add_env` (resources.py lines 108-122): the MEM_LIMIT
env var sourced from a resource-field reference. -/
def spgwu_add_env : List EnvVar :=
  [ { name := "MEM_LIMIT", value := none,
      value_from := some (.resourceFieldRef
        { container_name := "spgwu", resource := "limits.memory",
          divisor := "1Mi" }) } ]

/-- Embeds `SpgwuResources.add_spgwu_init_containers` (resources.py lines 86-106). -/
def add_spgwu_init_containers : List Container :=
  [ { name := "spgwu-iptables-init",
      command := ["/opt/dp/scripts/setup-af-iface.sh"],
      image := "docker.io/omecproject/pod-init:1.0.0",
      image_pull_policy := "IfNotPresent",
      capabilities_add := ["IPC_LOCK", "NET_ADMIN"],
      volume_mounts := [ { mount_path := "/opt/dp/scripts/setup-af-iface.sh",
                           sub_path := "setup-af-iface.sh",
                           name := "dp-script" } ],
      env := [], resources := none, stdin := false, tty := false } ]

/-- The `V1ResourceRequirements` value constructed in
`SpgwuResources.add_container_resource_limit` (resources.py lines 131-140). -/
def containerResourceLimit : ResourceRequirements :=
  { limits := { cpu := "0.2", memory := "200Mi" },
    requests := { cpu := "0.2", memory := "200Mi" } }

/-- The loop body of `SpgwuResources.apply` over services (resources.py
lines 36-51): list by exact name, create if absent, else patch. -/
def applyServices (c : Cluster) : List SvcDescriptor → Cluster × List ApiCall
  | [] => (c, [])
  | d :: rest =>
    let n := d.body.metadata.name
    if (listNamespacedService c d.ns n).isEmpty then
      let c1 := createNamespacedService c d.ns d.body
      let r := applyServices c1 rest
      (r.1, .listService d.ns n :: .createService d.ns d.body :: r.2)
    else
      let c1 := patchNamespacedService c d.ns n d.body
      let r := applyServices c1 rest
      (r.1, .listService d.ns n :: .patchService d.ns n d.body :: r.2)

/-- The loop body of `SpgwuResources.apply` over config maps (resources.py
lines 53-66). -/
def applyConfigMaps (c : Cluster) : List CmDescriptor → Cluster × List ApiCall
  | [] => (c, [])
  | d :: rest =>
    let n := d.body.metadata.name
    if (listNamespacedConfigMap c d.ns n).isEmpty then
      let c1 := createNamespacedConfigMap c d.ns d.body
      let r := applyConfigMaps c1 rest
      (r.1, .listConfigMap d.ns n :: .createConfigMap d.ns d.body :: r.2)
    else
      let c1 := patchNamespacedConfigMap c d.ns n d.body
      let r := applyConfigMaps c1 rest
      (r.1, .listConfigMap d.ns n :: .patchConfigMap d.ns n d.body :: r.2)

/-- Embeds `SpgwuResources.apply` (resources.py lines 32-66): reconcile all service
descriptors, then all config-map descriptors. -/
def apply (c : Cluster) (svcs : List SvcDescriptor) (cms : List CmDescriptor) :
    Cluster × List ApiCall :=
  let r1 := applyServices c svcs
  let r2 := applyConfigMaps r1.1 cms
  (r2.1, r1.2 ++ r2.2)

/-- The loop of `SpgwuResources.delete` over services (resources.py lines
73-76): no exception handling, so a missing object's 404 propagates. -/
def deleteServices (c : Cluster) : List SvcDescriptor →
    Except PyErr (Cluster × List ApiCall)
  | [] => .ok (c, [])
  | d :: rest =>
    match deleteNamespacedService c d.ns d.body.metadata.name with
    | .error e => .error e
    | .ok c1 =>
      match deleteServices c1 rest with
      | .error e => .error e
      | .ok r => .ok (r.1, .deleteService d.ns d.body.metadata.name :: r.2)

/-- The loop of `SpgwuResources.delete` over config maps (resources.py lines
81-84). -/
def deleteConfigMaps (c : Cluster) : List CmDescriptor →
    Except PyErr (Cluster × List ApiCall)
  | [] => .ok (c, [])
  | d :: rest =>
    match deleteNamespacedConfigMap c d.ns d.body.metadata.name with
    | .error e => .error e
    | .ok c1 =>
      match deleteConfigMaps c1 rest with
      | .error e => .error e
      | .ok r => .ok (r.1, .deleteConfigMap d.ns d.body.metadata.name :: r.2)

/-- Embeds `SpgwuResources.delete` (resources.py lines 70-84): delete every service
descriptor, then every config-map descriptor, with no error handling. -/
def delete (c : Cluster) (svcs : List SvcDescriptor) (cms : List CmDescriptor) :
    Except PyErr (Cluster × List ApiCall) :=
  match deleteServices c svcs with
  | .error e => .error e
  | .ok r1 =>
    match deleteConfigMaps r1.1 cms with
    | .error e => .error e
    | .ok r2 => .ok (r2.1, r1.2 ++ r2.2)

end SpgwuResources

/-- A unit status value as set by the charm (`ActiveStatus`,
`MaintenanceStatus`, `BlockedStatus`). -/
inductive Status where
  | active
  | maintenance (msg : String)
  | blocked (msg : String)
deriving DecidableEq, Repr

/-- The charm's in-process state: the `_authed` flag and the unit status. -/
structure CharmState where
  authed : Bool
  status : Status
deriving DecidableEq, Repr

/-- The outcome of the `list_cluster_role` privilege probe: `none` means the
call succeeded, `some code` means the client raised `ApiException(code)`. -/
def ProbeOutcome : Type := Option Nat

namespace SpgwcResources

/-- Modelled from the spec: `SpgwcResources.spgwc_add_env` lives in
`src/charm/spgwc/src/resources.py`, which is not under `src/`; per the spec
the appended env entries include the single designated sentinel env var
`MME_ADDR`, sourced from config-map `mme-ip` key `IP` (the same value
`_statefulset_patched` tests for, charm.py lines 93-101). -/
def spgwc_add_env : List EnvVar :=
  [ { name := "MME_ADDR", value := none,
      value_from := some (.configMapKeyRef { key := "IP", name := "mme-ip" }) } ]

end SpgwcResources

namespace SpgwcCharm

/-- The `expected` sentinel env var of `_statefulset_patched` (charm.py lines
93-101): `MME_ADDR` sourced from config-map `mme-ip`, key `IP`. -/
def expectedPatchEnv : EnvVar :=
  { name := "MME_ADDR", value := none,
    value_from := some (.configMapKeyRef { key := "IP", name := "mme-ip" }) }

/-- The `V1ResourceRequirements` assigned to `containers[1]` in
`_patch_stateful_set` (charm.py lines 119-128). -/
def containerResourceLimit : ResourceRequirements :=
  { limits := { cpu := "2", memory := "2Gi" },
    requests := { cpu := "2", memory := "2Gi" } }

/-- Embeds `SpgwcCharm._statefulset_patched` (charm.py lines 85-102): whether the
sentinel env var is present in `containers[1].env`. `none` models the
`IndexError` raised when the pod spec has fewer than two containers. -/
def _statefulset_patched (ss : StatefulSet) : Option Bool :=
  match ss.spec.template.spec.containers[1]? with
  | none => none
  | some c => some (decide (expectedPatchEnv ∈ c.env))

/-- The object mutation of `SpgwcCharm._patch_stateful_set` (charm.py lines
111-130): extend `containers[1].env`, extend the pod's init containers, set
`containers[1]`'s resources, stdin and tty. `none` models the `IndexError`
on fewer than two containers. -/
def patchStatefulSetBody (addEnv : List EnvVar) (addInit : List Container)
    (ss : StatefulSet) : Option StatefulSet :=
  match ss.spec.template.spec.containers[1]? with
  | none => none
  | some c1 =>
    let c1' :=
      { c1 with
          env := (c1.env ++ addEnv),
          resources := some containerResourceLimit,
          stdin := true,
          tty := true }
    some
      { ss with
          spec :=
            { ss.spec with
                template :=
                  { ss.spec.template with
                      spec :=
                        { ss.spec.template.spec with
                            containers :=
                              ss.spec.template.spec.containers.set 1 c1',
                            init_containers :=
                              (ss.spec.template.spec.init_containers ++ addInit) } } } }

/-- Embeds `SpgwcCharm._patch_stateful_set` (charm.py lines 104-133) as an API
operation: read the StatefulSet, mutate it, issue a single full-object patch
call with the modified body. -/
def _patch_stateful_set (addEnv : List EnvVar) (addInit : List Container)
    (ss : StatefulSet) : Except PyErr (StatefulSet × List ApiCall) :=
  match patchStatefulSetBody addEnv addInit ss with
  | none => .error .indexError
  | some ss' =>
    .ok (ss', [ .readStatefulSet ss.metadata.ns ss.metadata.name,
                .patchStatefulSet ss.metadata.ns ss.metadata.name ss' ])

/-- Embeds `SpgwcCharm._k8s_auth` (charm.py lines 160-188): return `true` at once
when `_authed` is already set; otherwise probe `list_cluster_role`. On a 403
set a blocked status and return `false`; any other `ApiException` is
re-raised; on success memoize `_authed := true`. -/
def _k8s_auth (st : CharmState) (probe : ProbeOutcome) :
    Except PyErr (CharmState × Bool × List ApiCall) :=
  if st.authed then .ok (st, true, [])
  else
    match probe with
    | none => .ok ({ st with authed := true }, true, [.listClusterRole])
    | some code =>
      if code = 403 then
        .ok ({ st with
               status := .blocked "Run juju trust on this application to continue" },
             false, [.listClusterRole])
      else .error (.apiException code)

/-- Embeds `SpgwcCharm._on_install` (charm.py lines 198-208): defer when
`_k8s_auth` returns false; otherwise set a maintenance status and run the
resource apply step (`SpgwcResources.apply`, taken as a parameter since that
module is not under `src/`). Result: (state, cluster, deferred?, calls). -/
def _on_install (st : CharmState) (probe : ProbeOutcome)
    (applyStep : Cluster → Cluster × List ApiCall) (c : Cluster) :
    Except PyErr (CharmState × Cluster × Bool × List ApiCall) :=
  match _k8s_auth st probe with
  | .error e => .error e
  | .ok (st1, ok, authCalls) =>
    if ok then
      let st2 := { st1 with status := .maintenance "creating k8s resources" }
      let r := applyStep c
      .ok (st2, r.1, false, authCalls ++ r.2)
    else .ok (st1, c, true, authCalls)

/-- Embeds `SpgwcCharm._on_config_changed` (charm.py lines 72-83): defer when
`_k8s_auth` returns false; otherwise patch the StatefulSet unless
`_statefulset_patched` holds, then set an active status.
Result: (state, statefulset, deferred?, calls). -/
def _on_config_changed (st : CharmState) (probe : ProbeOutcome)
    (addEnv : List EnvVar) (addInit : List Container) (ss : StatefulSet) :
    Except PyErr (CharmState × StatefulSet × Bool × List ApiCall) :=
  match _k8s_auth st probe with
  | .error e => .error e
  | .ok (st1, ok, authCalls) =>
    if ok then
      match _statefulset_patched ss with
      | none => .error .indexError
      | some true =>
        .ok ({ st1 with status := .active }, ss, false,
             authCalls ++ [.readStatefulSet ss.metadata.ns ss.metadata.name])
      | some false =>
        match _patch_stateful_set addEnv addInit ss with
        | .error e => .error e
        | .ok (ss', patchCalls) =>
          .ok ({ st1 with status := .active }, ss', false,
               authCalls ++ [.readStatefulSet ss.metadata.ns ss.metadata.name]
                 ++ patchCalls)
    else .ok (st1, ss, true, authCalls)

/-- The mutating calls issued by one authenticated run of the
config-changed handler. -/
def configChangedWrites (addEnv : List EnvVar) (addInit : List Container)
    (ss : StatefulSet) : List ApiCall :=
  match _on_config_changed { authed := true, status := .active } none
      addEnv addInit ss with
  | .error _ => []
  | .ok (_, _, _, calls) => calls.filter ApiCall.isMutating

/-- Run the config-changed handler twice in sequence (the second run sees
the StatefulSet produced by the first) and return the mutating calls of the
second run. -/
def configChangedTwiceSecondWrites (addEnv : List EnvVar)
    (addInit : List Container) (ss : StatefulSet) : List ApiCall :=
  match _on_config_changed { authed := true, status := .active } none
      addEnv addInit ss with
  | .error _ => []
  | .ok (st1, ss1, _, _) =>
    match _on_config_changed st1 none addEnv addInit ss1 with
    | .error _ => []
    | .ok (_, _, _, calls) => calls.filter ApiCall.isMutating

end SpgwcCharm

/-! ## Shared sample objects and helper lemmas -/

/-- A plain container with a given name and empty optional fields. -/
def sampleContainer (n : String) : Container :=
  { name := n, command := [], image := "img",
    image_pull_policy := "IfNotPresent", capabilities_add := [],
    volume_mounts := [], env := [], resources := none,
    stdin := false, tty := false }

/-- A StatefulSet whose pod spec has two containers, as the deployed
application has (a sidecar at index 0 and the workload at index 1). -/
def sampleStatefulSet : StatefulSet :=
  { metadata := { ns := "ns1", name := "spgwc", labels := [] },
    spec :=
      { service_name := "spgwc", replicas := 1,
        template :=
          { metadata := { ns := "ns1", name := "spgwc", labels := [] },
            spec :=
              { containers := [sampleContainer "sidecar", sampleContainer "spgwc"],
                init_containers := [], volumes := [] } } } }

/-- A StatefulSet whose pod spec has a single container. -/
def oneContainerStatefulSet : StatefulSet :=
  { metadata := { ns := "ns1", name := "spgwc", labels := [] },
    spec :=
      { service_name := "spgwc", replicas := 1,
        template :=
          { metadata := { ns := "ns1", name := "spgwc", labels := [] },
            spec :=
              { containers := [sampleContainer "only"],
                init_containers := [], volumes := [] } } } }

/-- The cluster with no objects. -/
def emptyCluster : Cluster := { services := [], config_maps := [] }

/-- Every `V1ResourceRequirements` literal the two charms construct:
the one assigned in `SpgwcCharm._patch_stateful_set` (charm.py lines
119-128) and the one built in `SpgwuResources.add_container_resource_limit`
(resources.py lines 131-140). -/
def allConstructedResourceLimits : List ResourceRequirements :=
  [SpgwcCharm.containerResourceLimit, SpgwuResources.containerResourceLimit]

/-! ## Claims -/

/-- C1: for every descriptor processed by `apply`, the reconciler first
lists existing cluster objects filtered by the descriptor's exact name; if
the list is empty it issues a create call, and if non-empty it issues a
patch call with the descriptor's body — so existence of the object before
`apply` yields a patch and absence yields a create, for services and config
maps alike. -/
theorem apply_lists_then_creates_or_patches (c : Cluster) (sd : SvcDescriptor)
    (cd : CmDescriptor) :
    (SpgwuResources.apply c [sd] []).2 =
      [ .listService sd.ns sd.body.metadata.name,
        if (listNamespacedService c sd.ns sd.body.metadata.name).isEmpty then
          .createService sd.ns sd.body
        else
          .patchService sd.ns sd.body.metadata.name sd.body ]
    ∧ (SpgwuResources.apply c [] [cd]).2 =
      [ .listConfigMap cd.ns cd.body.metadata.name,
        if (listNamespacedConfigMap c cd.ns cd.body.metadata.name).isEmpty then
          .createConfigMap cd.ns cd.body
        else
          .patchConfigMap cd.ns cd.body.metadata.name cd.body ] := by
  constructor <;>
    · simp only [SpgwuResources.apply, SpgwuResources.applyServices,
        SpgwuResources.applyConfigMaps]
      split <;> simp

/-- C8: every `V1ResourceRequirements` value the program constructs sets the
requests identical to the limits (for both cpu and memory): this holds for
each element of `allConstructedResourceLimits`, which enumerates both
assignment sites. -/
theorem resource_requests_equal_limits :
    allConstructedResourceLimits.all
      (fun r => decide (r.requests = r.limits)) = true := by
  decide

/-- C9: the authorization check is memoized: whenever `_authed` already
holds, `_k8s_auth` returns `true` at once with no API call at all — in
particular no `list_cluster_role` probe — whatever the probe would have
answered (even a 403, i.e. revoked privileges); and a successful probe sets
the memo flag. -/
theorem k8s_auth_memoized :
    (∀ (s : Status) (probe : ProbeOutcome),
      SpgwcCharm._k8s_auth { authed := true, status := s } probe =
        .ok ({ authed := true, status := s }, true, []))
    ∧ SpgwcCharm._k8s_auth { authed := false, status := .active } none =
        .ok ({ authed := true, status := .active }, true, [.listClusterRole]) :=
  ⟨fun _ _ => rfl, rfl⟩

/-- C6 counterexample: with all three bundle categories non-empty, the
desired-state builder does not return one ConfigMap descriptor per category
(which would be three); it returns a single descriptor, and its data is the
script bundle only. -/
theorem configmaps_not_one_per_category :
    ¬ (SpgwuResources._configmaps "ns1" "app1"
        [("dir/s.sh", "a")] [("dir/c.cfg", "b")] [("dir/r.sh", "d")]).length = 3
    ∧ (SpgwuResources._configmaps "ns1" "app1"
        [("dir/s.sh", "a")] [("dir/c.cfg", "b")] [("dir/r.sh", "d")]).map
          (fun d => d.body.data) = [[("s.sh", "a")]] := by
  constructor
  · decide
  · rfl

/-- C6 (amended): for any configuration input the desired-state builder
produces exactly one Service descriptor — type NodePort, protocol UDP,
container port 8085, node port 30020, selector keyed by the
`app.kubernetes.io/name` label — and exactly one ConfigMap descriptor in
total, named `spgwu`, labelled with both `app.kubernetes.io/name` and
`app`, whose data is the scripts bundle; the config and run-scripts bundles
are read but not emitted as ConfigMaps. -/
theorem build_produces_one_service_one_configmap (ns appName : String)
    (scriptFiles configFiles runscriptFiles : List (String × String)) :
    SpgwuResources._services ns appName =
      [ { ns := ns,
          body :=
            { metadata :=
                { ns := ns, name := "spgwu-dp-comm",
                  labels := [("app.kubernetes.io/name", appName)] },
              spec :=
                { ports := [ { name := "dp-comm", port := 8085,
                               protocol := "UDP", node_port := 30020 } ],
                  selector := [("app.kubernetes.io/name", appName)],
                  type := "NodePort" } } } ]
    ∧ SpgwuResources._configmaps ns appName scriptFiles configFiles
        runscriptFiles =
      [ { ns := ns,
          body :=
            { metadata :=
                { ns := ns, name := "spgwu",
                  labels := [("app.kubernetes.io/name", appName),
                             ("app", appName)] },
              data := SpgwuResources._get_config_data scriptFiles } } ] :=
  ⟨rfl, rfl⟩

/-- C7 counterexample: with every file bundle empty (missing inputs), the
desired-state builder does not fail at all — it silently produces the
`spgwu` ConfigMap descriptor with an empty data mapping. -/
theorem builder_accepts_empty_bundles :
    SpgwuResources._configmaps "ns1" "app1" [] [] [] =
      [ { ns := "ns1",
          body :=
            { metadata :=
                { ns := "ns1", name := "spgwu",
                  labels := [("app.kubernetes.io/name", "app1"),
                             ("app", "app1")] },
              data := [] } } ] := rfl

/-- C7 (amended): the desired-state builder is total and never signals a
configuration error: `_get_config_data` of an empty file set is the empty
mapping, and `_configmaps` on all-empty bundles still returns the single
`spgwu` ConfigMap descriptor, with empty data — descriptors are produced
silently from missing inputs. -/
theorem builder_total_on_missing_inputs (ns appName : String) :
    SpgwuResources._get_config_data [] = []
    ∧ SpgwuResources._configmaps ns appName [] [] [] =
      [ { ns := ns,
          body :=
            { metadata :=
                { ns := ns, name := "spgwu",
                  labels := [("app.kubernetes.io/name", appName),
                             ("app", appName)] },
              data := [] } } ] :=
  ⟨rfl, rfl⟩

/-- C3 counterexample: deleting the builder's ConfigMap descriptor when the
object is absent from the cluster does not return success — the 404
`ApiException` raised by the client propagates out of `delete`, which has no
error handling. -/
theorem delete_missing_configmap_raises :
    SpgwuResources.delete emptyCluster []
        (SpgwuResources._configmaps "ns1" "app1" [] [] []) =
      .error (.apiException 404) := rfl

/-- C3 (amended): `delete` issues a delete call for every descriptor by
name+namespace, with no local error handling: for any descriptor whose
object is absent from the cluster, the delete is not treated as success —
the underlying 404 API error propagates to the caller. -/
theorem delete_missing_object_errors (c : Cluster) (d : CmDescriptor)
    (h : (c.config_maps.any fun m =>
        m.metadata.ns == d.ns && m.metadata.name == d.body.metadata.name)
      = false) :
    SpgwuResources.delete c [] [d] = .error (.apiException 404) := by
  simp [SpgwuResources.delete, SpgwuResources.deleteServices,
    SpgwuResources.deleteConfigMaps, deleteNamespacedConfigMap, h]

/-- Witness for C3 (amended): the empty cluster contains no object matching
a concrete descriptor, and `delete` on it surfaces the 404 error. -/
theorem delete_missing_object_errors_witness :
    SpgwuResources.delete emptyCluster []
        [ { ns := "n1",
            body := { metadata := { ns := "n1", name := "cm1", labels := [] },
                      data := [] } } ] =
      .error (.apiException 404) :=
  delete_missing_object_errors emptyCluster
    { ns := "n1",
      body := { metadata := { ns := "n1", name := "cm1", labels := [] },
                data := [] } } rfl

/-- C5: when the cluster privilege probe (`list_cluster_role`) fails with
status 403 and the memo flag is unset, both `_on_install` and
`_on_config_changed` defer their event, set the blocked status, and issue no
mutating API call at all (their whole trace is the probe, which is not a
mutating call); any non-403 failure of the probe is re-raised to the caller
unchanged. -/
theorem auth_failure_defers_without_mutation (st : CharmState)
    (hst : st.authed = false) (applyStep : Cluster → Cluster × List ApiCall)
    (c : Cluster) (addEnv : List EnvVar) (addInit : List Container)
    (ss : StatefulSet) :
    SpgwcCharm._on_install st (some 403) applyStep c =
      .ok ({ st with
             status := .blocked "Run juju trust on this application to continue" },
           c, true, [.listClusterRole])
    ∧ SpgwcCharm._on_config_changed st (some 403) addEnv addInit ss =
      .ok ({ st with
             status := .blocked "Run juju trust on this application to continue" },
           ss, true, [.listClusterRole])
    ∧ [ApiCall.listClusterRole].filter ApiCall.isMutating = []
    ∧ (∀ code : Nat, ¬ code = 403 →
        SpgwcCharm._k8s_auth st (some code) = .error (.apiException code)) := by
  refine ⟨?_, ?_, rfl, ?_⟩
  · simp [SpgwcCharm._on_install, SpgwcCharm._k8s_auth, hst]
  · simp [SpgwcCharm._on_config_changed, SpgwcCharm._k8s_auth, hst]
  · intro code hcode
    simp [SpgwcCharm._k8s_auth, hst, hcode]

/-- Witness for C5: at a concrete unauthenticated state, cluster and
StatefulSet, the 403 probe makes `_on_install` defer with only the probe
call issued, and a 500 probe failure is re-raised. -/
theorem auth_failure_defers_without_mutation_witness :
    SpgwcCharm._on_install { authed := false, status := .active } (some 403)
        (fun c => (c, [])) emptyCluster =
      .ok ({ authed := false,
             status := .blocked "Run juju trust on this application to continue" },
           emptyCluster, true, [.listClusterRole])
    ∧ SpgwcCharm._k8s_auth { authed := false, status := .active } (some 500) =
      .error (.apiException 500) :=
  ⟨(auth_failure_defers_without_mutation { authed := false, status := .active }
      rfl (fun c => (c, [])) emptyCluster [] [] sampleStatefulSet).1,
   (auth_failure_defers_without_mutation { authed := false, status := .active }
      rfl (fun c => (c, [])) emptyCluster [] [] sampleStatefulSet).2.2.2 500
      (by decide)⟩

/-- C4: when the target container exists (index 1), the StatefulSet patch
operation appends all env entries to that container's env list, appends all
init-container entries to the pod's init-containers, sets the resource
limits on the target container, sets stdin and tty to true, leaves the
metadata, service name, replicas, template metadata, volumes and every other
container unchanged, and issues exactly one (full-object) patch API call. -/
theorem patch_stateful_set_shape (addEnv : List EnvVar)
    (addInit : List Container) (ss : StatefulSet) (c1 : Container)
    (h : ss.spec.template.spec.containers[1]? = some c1) :
    (∀ ss' : StatefulSet,
      SpgwcCharm.patchStatefulSetBody addEnv addInit ss = some ss' →
      ss'.spec.template.spec.containers[1]? =
          some { c1 with
                   env := (c1.env ++ addEnv),
                   resources := some SpgwcCharm.containerResourceLimit,
                   stdin := true,
                   tty := true }
      ∧ ss'.spec.template.spec.init_containers =
          ss.spec.template.spec.init_containers ++ addInit
      ∧ ss'.metadata = ss.metadata
      ∧ ss'.spec.service_name = ss.spec.service_name
      ∧ ss'.spec.replicas = ss.spec.replicas
      ∧ ss'.spec.template.metadata = ss.spec.template.metadata
      ∧ ss'.spec.template.spec.volumes = ss.spec.template.spec.volumes
      ∧ ss'.spec.template.spec.containers.length =
          ss.spec.template.spec.containers.length
      ∧ (∀ i : Nat, ¬ i = 1 →
          ss'.spec.template.spec.containers[i]? =
            ss.spec.template.spec.containers[i]?)
      ∧ SpgwcCharm._patch_stateful_set addEnv addInit ss =
          .ok (ss', [ .readStatefulSet ss.metadata.ns ss.metadata.name,
                      .patchStatefulSet ss.metadata.ns ss.metadata.name ss' ])
      ∧ ([ ApiCall.readStatefulSet ss.metadata.ns ss.metadata.name,
           ApiCall.patchStatefulSet ss.metadata.ns ss.metadata.name ss'
         ].filter ApiCall.isMutating) =
          [ApiCall.patchStatefulSet ss.metadata.ns ss.metadata.name ss'])
    ∧ (SpgwcCharm.patchStatefulSetBody addEnv addInit ss).isSome = true := by
  have hlt : 1 < ss.spec.template.spec.containers.length :=
    (List.getElem?_eq_some.mp h).1
  constructor
  · intro ss' hss'
    simp only [SpgwcCharm.patchStatefulSetBody, h, Option.some.injEq] at hss'
    subst hss'
    refine ⟨?_, rfl, rfl, rfl, rfl, rfl, rfl, ?_, ?_, ?_, ?_⟩
    · exact List.getElem?_set_eq_of_lt _ hlt
    · simp
    · intro i hi
      exact List.getElem?_set_ne (fun he => hi he.symm)
    · simp [SpgwcCharm._patch_stateful_set, SpgwcCharm.patchStatefulSetBody, h]
    · simp [ApiCall.isMutating]
  · simp [SpgwcCharm.patchStatefulSetBody, h]

/-- Witness for C4: at the two-container sample StatefulSet with the
spec-modelled env patch and no extra init containers, the patched body has
the sentinel env appended on container 1 and container 0 untouched. -/
theorem patch_stateful_set_shape_witness :
    (SpgwcCharm.patchStatefulSetBody SpgwcResources.spgwc_add_env []
        sampleStatefulSet).isSome = true
    ∧ ((SpgwcCharm.patchStatefulSetBody SpgwcResources.spgwc_add_env []
        sampleStatefulSet).map
          (fun ss' => ss'.spec.template.spec.containers[1]?)) =
      some (some { sampleContainer "spgwc" with
                     env := SpgwcResources.spgwc_add_env,
                     resources := some SpgwcCharm.containerResourceLimit,
                     stdin := true,
                     tty := true })
    ∧ ((SpgwcCharm.patchStatefulSetBody SpgwcResources.spgwc_add_env []
        sampleStatefulSet).map
          (fun ss' => ss'.spec.template.spec.containers[0]?)) =
      some (some (sampleContainer "sidecar")) := by
  obtain ⟨hall, hsome⟩ :=
    patch_stateful_set_shape SpgwcResources.spgwc_add_env [] sampleStatefulSet
      (sampleContainer "spgwc") rfl
  cases hb : SpgwcCharm.patchStatefulSetBody SpgwcResources.spgwc_add_env []
      sampleStatefulSet with
  | none => rw [hb] at hsome; simp at hsome
  | some ss' =>
    obtain ⟨h1, _, _, _, _, _, _, _, hframe, _, _⟩ := hall ss' hb
    refine ⟨by rw [hb] at hsome; exact hsome, ?_, ?_⟩
    · simp only [Option.map_some', Option.some.injEq]
      rw [h1]
      rfl
    · simp only [Option.map_some', Option.some.injEq]
      rw [hframe 0 (by decide)]
      rfl

/-- C10: both the already-patched check and the StatefulSet patch address
the container at the hard-coded index 1: on any StatefulSet whose pod spec
has fewer than two containers both operations fail with the out-of-range
access (`none` / `IndexError`) instead of returning a result; and whenever
the patch does produce a result, the container at index 0 is passed through
unchanged — it never receives the env vars, resource limits, or stdin/tty
settings. -/
theorem container_index_one_hardcoded (addEnv : List EnvVar)
    (addInit : List Container) (ss : StatefulSet) :
    (ss.spec.template.spec.containers.length < 2 →
      SpgwcCharm._statefulset_patched ss = none
      ∧ SpgwcCharm.patchStatefulSetBody addEnv addInit ss = none
      ∧ SpgwcCharm._patch_stateful_set addEnv addInit ss = .error .indexError)
    ∧ (∀ ss' : StatefulSet,
        SpgwcCharm.patchStatefulSetBody addEnv addInit ss = some ss' →
        ss'.spec.template.spec.containers[0]? =
          ss.spec.template.spec.containers[0]?) := by
  constructor
  · intro hlen
    have hnone : ss.spec.template.spec.containers[1]? = none :=
      List.getElem?_eq_none (by omega)
    exact ⟨by simp [SpgwcCharm._statefulset_patched, hnone],
           by simp [SpgwcCharm.patchStatefulSetBody, hnone],
           by simp [SpgwcCharm._patch_stateful_set,
                    SpgwcCharm.patchStatefulSetBody, hnone]⟩
  · intro ss' hss'
    cases h1 : ss.spec.template.spec.containers[1]? with
    | none => simp [SpgwcCharm.patchStatefulSetBody, h1] at hss'
    | some c1 =>
      simp only [SpgwcCharm.patchStatefulSetBody, h1, Option.some.injEq] at hss'
      subst hss'
      exact List.getElem?_set_ne (by decide)

/-- Witness for C10: the one-container sample StatefulSet makes the check
and the patch fail with the out-of-range access. -/
theorem container_index_one_hardcoded_witness :
    SpgwcCharm._statefulset_patched oneContainerStatefulSet = none
    ∧ SpgwcCharm.patchStatefulSetBody SpgwcResources.spgwc_add_env []
        oneContainerStatefulSet = none
    ∧ SpgwcCharm._patch_stateful_set SpgwcResources.spgwc_add_env []
        oneContainerStatefulSet = .error .indexError :=
  (container_index_one_hardcoded SpgwcResources.spgwc_add_env []
      oneContainerStatefulSet).1 (by decide)

/-- Helper: an authenticated config-changed pass over an already-patched
StatefulSet only reads and leaves everything unchanged. -/
lemma configChanged_authed_patched (addEnv : List EnvVar)
    (addInit : List Container) (ss : StatefulSet)
    (hp : SpgwcCharm._statefulset_patched ss = some true) :
    SpgwcCharm._on_config_changed { authed := true, status := .active } none
        addEnv addInit ss =
      .ok ({ authed := true, status := .active }, ss, false,
           [.readStatefulSet ss.metadata.ns ss.metadata.name]) := by
  simp [SpgwcCharm._on_config_changed, SpgwcCharm._k8s_auth, hp]

/-- Helper: an authenticated config-changed pass over an unpatched
StatefulSet reads twice and issues the single patch with the mutated body. -/
lemma configChanged_authed_unpatched (addEnv : List EnvVar)
    (addInit : List Container) (ss ss1 : StatefulSet)
    (hp : SpgwcCharm._statefulset_patched ss = some false)
    (hb : SpgwcCharm.patchStatefulSetBody addEnv addInit ss = some ss1) :
    SpgwcCharm._on_config_changed { authed := true, status := .active } none
        addEnv addInit ss =
      .ok ({ authed := true, status := .active }, ss1, false,
           [ .readStatefulSet ss.metadata.ns ss.metadata.name,
             .readStatefulSet ss.metadata.ns ss.metadata.name,
             .patchStatefulSet ss.metadata.ns ss.metadata.name ss1 ]) := by
  simp [SpgwcCharm._on_config_changed, SpgwcCharm._k8s_auth, hp,
    SpgwcCharm._patch_stateful_set, hb]

/-- Helper: patching with the spec-modelled env entries puts the sentinel
env var into the target container, so the already-patched check holds on
the patched body. -/
lemma patched_body_has_sentinel (addInit : List Container) (ss : StatefulSet)
    (c1 : Container) (h : ss.spec.template.spec.containers[1]? = some c1)
    (ss1 : StatefulSet)
    (hb : SpgwcCharm.patchStatefulSetBody SpgwcResources.spgwc_add_env addInit
        ss = some ss1) :
    SpgwcCharm._statefulset_patched ss1 = some true := by
  have hlt : 1 < ss.spec.template.spec.containers.length :=
    (List.getElem?_eq_some.mp h).1
  simp only [SpgwcCharm.patchStatefulSetBody, h, Option.some.injEq] at hb
  subst hb
  have hget :
      (ss.spec.template.spec.containers.set 1
        { c1 with
            env := (c1.env ++ SpgwcResources.spgwc_add_env),
            resources := some SpgwcCharm.containerResourceLimit,
            stdin := true,
            tty := true })[1]? =
      some { c1 with
               env := (c1.env ++ SpgwcResources.spgwc_add_env),
               resources := some SpgwcCharm.containerResourceLimit,
               stdin := true,
               tty := true } :=
    List.getElem?_set_eq_of_lt _ hlt
  simp only [SpgwcCharm._statefulset_patched, hget]
  simp [SpgwcResources.spgwc_add_env, SpgwcCharm.expectedPatchEnv,
    List.mem_append]

/-- C2: the StatefulSet patch is applied at most once per sentinel. If the
sentinel env var (`MME_ADDR` from config-map `mme-ip` key `IP`) is already
present in the target container's env list, the already-patched check
returns true and the config-changed pass issues zero mutating calls; and
running the config-changed flow twice in sequence (with the spec-modelled
env patch, which carries the sentinel) issues zero mutating calls on the
second run — the patch happens at most on the first. -/
theorem statefulset_patch_at_most_once (ss : StatefulSet) (c1 : Container)
    (h : ss.spec.template.spec.containers[1]? = some c1)
    (addInit : List Container) :
    (SpgwcCharm.expectedPatchEnv ∈ c1.env →
      SpgwcCharm._statefulset_patched ss = some true
      ∧ SpgwcCharm.configChangedWrites SpgwcResources.spgwc_add_env addInit
          ss = [])
    ∧ SpgwcCharm.configChangedTwiceSecondWrites SpgwcResources.spgwc_add_env
        addInit ss = [] := by
  constructor
  · intro hmem
    have hp : SpgwcCharm._statefulset_patched ss = some true := by
      simp [SpgwcCharm._statefulset_patched, h, hmem]
    refine ⟨hp, ?_⟩
    simp [SpgwcCharm.configChangedWrites,
      configChanged_authed_patched SpgwcResources.spgwc_add_env addInit ss hp,
      ApiCall.isMutating]
  · by_cases hmem : SpgwcCharm.expectedPatchEnv ∈ c1.env
    · have hp : SpgwcCharm._statefulset_patched ss = some true := by
        simp [SpgwcCharm._statefulset_patched, h, hmem]
      have h1 := configChanged_authed_patched SpgwcResources.spgwc_add_env
        addInit ss hp
      simp [SpgwcCharm.configChangedTwiceSecondWrites, h1, ApiCall.isMutating]
    · have hp : SpgwcCharm._statefulset_patched ss = some false := by
        simp [SpgwcCharm._statefulset_patched, h, hmem]
      cases hb : SpgwcCharm.patchStatefulSetBody SpgwcResources.spgwc_add_env
          addInit ss with
      | none => simp [SpgwcCharm.patchStatefulSetBody, h] at hb
      | some ss1 =>
        have h1 := configChanged_authed_unpatched SpgwcResources.spgwc_add_env
          addInit ss ss1 hp hb
        have hp1 : SpgwcCharm._statefulset_patched ss1 = some true :=
          patched_body_has_sentinel addInit ss c1 h ss1 hb
        have h2 := configChanged_authed_patched SpgwcResources.spgwc_add_env
          addInit ss1 hp1
        simp [SpgwcCharm.configChangedTwiceSecondWrites, h1, h2,
          ApiCall.isMutating]

/-- Witness for C2: on the two-container sample StatefulSet (sentinel
absent), running the config-changed flow twice issues no mutating call on
the second run. -/
theorem statefulset_patch_at_most_once_witness :
    SpgwcCharm.configChangedTwiceSecondWrites SpgwcResources.spgwc_add_env []
        sampleStatefulSet = [] :=
  (statefulset_patch_at_most_once sampleStatefulSet (sampleContainer "spgwc")
      rfl []).2
